import Mathlib

/-!
# serverless-certificate-creator: the certificate provisioning workflow

A shallow embedding of `src/index.js` (class `CreateCertificatePlugin`).

* The plug-in instance (`this`) is the record `CreateCertificatePlugin`; methods take it
  as `self` and, where they assign to `this`, return the updated record.
* The remote services (ACM and Route53 behind the AWS SDK) are the record `AWS`: for each
  operation, how the promise returned by `.promise()` settles.
* A promise is modelled by what it does until it settles (a trace of `Event`s: remote
  calls, the delay, log lines) and how it settles (`Settled`).  `.then` is `Promise.next`,
  `.catch` is `Promise.handle`; a promise that is created but neither returned nor awaited
  is `Promise.floating`.
-/

namespace CertificateCreator

/-! ## JavaScript values and errors -/

/-- A JavaScript value as read from the service configuration.  Numbers and objects carry
the text that string conversion gives for them. -/
inductive JSValue where
  | undefined
  | null
  | bool (b : Bool)
  | number (rendered : String)
  | string (s : String)
  | object (rendered : String)
  deriving DecidableEq, Repr

/-- The `typeof` operator. -/
def JSValue.typeof : JSValue → String
  | .undefined => "undefined"
  | .null => "object"
  | .bool _ => "boolean"
  | .number _ => "number"
  | .string _ => "string"
  | .object _ => "object"

/-- String conversion of a value inside a template literal. -/
def JSValue.toTemplate : JSValue → String
  | .undefined => "undefined"
  | .null => "null"
  | .bool true => "true"
  | .bool false => "false"
  | .number r => r
  | .string s => s
  | .object r => r

/-- String conversion of a possibly undefined string inside a template literal. -/
def templateOf : Option String → String
  | none => "undefined"
  | some s => s

/-- Truthiness of a possibly undefined string: undefined and the empty string are falsy. -/
def truthy : Option String → Bool
  | none => false
  | some s => s != ""

/-- The expression `v || d` for a possibly undefined string `v`. -/
def orDefault (v : Option String) (d : String) : String :=
  match v with
  | none => d
  | some s => if truthy (some s) then s else d

/-- What a promise can be rejected with, or a function can throw.
* `typeError prop`: the runtime TypeError raised by reading property `prop` of undefined;
* `error message`: an object made by `new Error(message)`;
* `service code message`: the error an AWS SDK call fails with. -/
inductive JSError where
  | typeError (prop : String)
  | error (message : String)
  | service (code : String) (message : String)
  deriving DecidableEq, Repr

/-! ## Service configuration (`serverless.service.custom`) -/

structure CustomDomain where
  enabled : JSValue
  deriving DecidableEq, Repr

structure CustomCertificate where
  certificateName : String
  hostedZoneId : String
  region : Option String
  idempotencyToken : Option String
  deriving DecidableEq, Repr

structure Custom where
  customDomain : Option CustomDomain
  customCertificate : CustomCertificate
  deriving DecidableEq, Repr

structure Service where
  custom : Custom
  deriving DecidableEq, Repr

structure Serverless where
  service : Service
  deriving DecidableEq, Repr

/-! ## Request and response shapes of the AWS SDK -/

structure CertificateSummary where
  CertificateArn : String
  DomainName : String
  deriving DecidableEq, Repr

structure ListCertificatesResponse where
  CertificateSummaryList : List CertificateSummary
  deriving DecidableEq, Repr

structure RequestCertificateParams where
  DomainName : Option String
  ValidationMethod : String
  IdempotencyToken : Option String
  deriving DecidableEq, Repr

structure RequestCertificateResponse where
  CertificateArn : String
  deriving DecidableEq, Repr

structure DescribeCertificateParams where
  CertificateArn : String
  deriving DecidableEq, Repr

/-- The field `Type` of the SDK is `Type_` here. -/
structure ResourceRecord where
  Name : String
  Value : String
  Type_ : String
  deriving DecidableEq, Repr

structure DomainValidation where
  DomainName : String
  ResourceRecord : Option ResourceRecord
  deriving DecidableEq, Repr

structure CertificateDetail where
  DomainValidationOptions : List DomainValidation
  deriving DecidableEq, Repr

structure DescribeCertificateResponse where
  Certificate : CertificateDetail
  deriving DecidableEq, Repr

structure ResourceRecordValue where
  Value : String
  deriving DecidableEq, Repr

structure ResourceRecordSet where
  Name : String
  ResourceRecords : List ResourceRecordValue
  TTL : Nat
  Type_ : String
  deriving DecidableEq, Repr

structure Change where
  Action : String
  ResourceRecordSet : ResourceRecordSet
  deriving DecidableEq, Repr

structure ChangeBatch where
  Changes : List Change
  Comment : String
  deriving DecidableEq, Repr

structure ChangeResourceRecordSetsParams where
  ChangeBatch : ChangeBatch
  HostedZoneId : String
  deriving DecidableEq, Repr

structure ChangeResourceRecordSetsResponse where
  ChangeInfoId : String
  deriving DecidableEq, Repr

/-! ## Promises and observable events -/

/-- The argument of a `JSON.stringify` call in a log statement. -/
inductive Payload where
  | requested (r : RequestCertificateResponse)
  | described (r : DescribeCertificateResponse)
  | changed (r : ChangeResourceRecordSetsResponse)
  deriving DecidableEq, Repr

/-- The `chalk` style applied to a summary line. -/
inductive Style where
  | plain
  | yellow
  | yellowUnderline
  deriving DecidableEq, Repr

/-- What a run does that can be observed from outside, in order of occurrence. -/
inductive Event where
  /-- The call `acm.listCertificates` with an empty parameter object. -/
  | listCertificates
  /-- The call `acm.requestCertificate(params)`. -/
  | requestCertificate (params : RequestCertificateParams)
  /-- The timer `delay(ms)`. -/
  | delay (ms : Nat)
  /-- The call `acm.describeCertificate(params)`. -/
  | describeCertificate (params : DescribeCertificateParams)
  /-- The call `route53.changeResourceRecordSets(params)`. -/
  | changeResourceRecordSets (params : ChangeResourceRecordSetsParams)
  /-- The statement `serverless.cli.log(msg)`. -/
  | cliLog (msg : String)
  /-- The statement `serverless.cli.log(pfx + JSON.stringify(payload))`. -/
  | cliLogJson (pfx : String) (payload : Payload)
  /-- The statement `serverless.cli.log(msg, error)`. -/
  | cliLogError (msg : String) (error : JSError)
  /-- The statement `console.log(JSON.stringify(payload))`. -/
  | consoleLogJson (payload : Payload)
  /-- The statement `console.log(label, error)`. -/
  | consoleLogError (label : String) (error : JSError)
  /-- The statement `serverless.cli.consoleLog(text)`, the text styled with `chalk`. -/
  | cliConsoleLog (style : Style) (text : String)
  /-- A rejected promise that has no handler. -/
  | unhandledRejection (error : JSError)
  deriving DecidableEq, Repr

/-- How a promise settles. -/
inductive Settled (α : Type) where
  | fulfilled (value : α)
  | rejected (reason : JSError)
  deriving DecidableEq, Repr

/-- A promise: the events up to its settlement, and the settlement. -/
structure Promise (α : Type) where
  trace : List Event
  settled : Settled α

namespace Promise

/-- The promise `Promise.resolve(v)`, also a callback that returns the plain value `v`. -/
def resolve {α : Type} (v : α) : Promise α := ⟨[], .fulfilled v⟩

/-- The promise `Promise.reject(e)`, also a callback that throws `e`. -/
def reject {α : Type} (e : JSError) : Promise α := ⟨[], .rejected e⟩

/-- Statements with the effects `evs`, followed by `k`. -/
def effect {α : Type} (evs : List Event) (k : Promise α) : Promise α :=
  ⟨evs ++ k.trace, k.settled⟩

/-- The promise `p.then(cb)`: `cb` runs on fulfilment; a rejection passes through. -/
def next {α β : Type} (p : Promise α) (cb : α → Promise β) : Promise β :=
  match p.settled with
  | .fulfilled v => ⟨p.trace ++ (cb v).trace, (cb v).settled⟩
  | .rejected e => ⟨p.trace, .rejected e⟩

/-- The promise `p.catch(cb)`: `cb` runs on rejection; a fulfilment passes through. -/
def handle {α : Type} (p : Promise α) (cb : JSError → Promise α) : Promise α :=
  match p.settled with
  | .fulfilled v => ⟨p.trace, .fulfilled v⟩
  | .rejected e => ⟨p.trace ++ (cb e).trace, (cb e).settled⟩

/-- A promise that is created and then dropped: its effects happen, its value is lost and
its rejection reaches no handler. -/
def floating {α : Type} (p : Promise α) : List Event :=
  match p.settled with
  | .fulfilled _ => p.trace
  | .rejected e => p.trace ++ [Event.unhandledRejection e]

end Promise

/-- The remote services: how the promise of each SDK call settles. -/
structure AWS where
  listCertificates : Settled ListCertificatesResponse
  requestCertificate : RequestCertificateParams → Settled RequestCertificateResponse
  describeCertificate : DescribeCertificateParams → Settled DescribeCertificateResponse
  changeResourceRecordSets :
    ChangeResourceRecordSetsParams → Settled ChangeResourceRecordSetsResponse

/-! ## The plug-in -/

/-- The fields of the plug-in instance that the workflow reads and writes.  `enabled`,
`region` and `domain` are undefined (`none`) until `initializeVariables` assigns them.
The SDK client handles `route53` and `acm` are built without any remote call and are
represented by the `AWS` argument of the methods. -/
structure CreateCertificatePlugin where
  serverless : Serverless
  initialized : Bool
  enabled : Option Bool
  region : Option String
  domain : Option String
  deriving DecidableEq, Repr

/-- The constructor (lines 6-25). -/
def CreateCertificatePlugin.new (serverless : Serverless) : CreateCertificatePlugin :=
  { serverless := serverless, initialized := false, enabled := none, region := none,
    domain := none }

/-- How a hook invocation ends: it throws before returning a promise, or returns a
promise that is fulfilled or rejected. -/
inductive Outcome where
  | threw (e : JSError)
  | resolved (v : JSValue)
  | rejected (e : JSError)
  deriving DecidableEq, Repr

/-- The result of invoking a hook: the instance afterwards, the events, the outcome. -/
structure HookResult where
  self : CreateCertificatePlugin
  trace : List Event
  outcome : Outcome
  deriving DecidableEq, Repr

/-- A hook that returns the promise `p`. -/
def HookResult.ofPromise (self : CreateCertificatePlugin) (p : Promise JSValue) : HookResult :=
  match p.settled with
  | .fulfilled v => ⟨self, p.trace, .resolved v⟩
  | .rejected e => ⟨self, p.trace, .rejected e⟩

/-- Lines 53-66.  Reading `enabled` of a missing `customDomain` raises a TypeError. -/
def evaluateEnabled (self : CreateCertificatePlugin) : Except JSError Bool :=
  match self.serverless.service.custom.customDomain with
  | none => .error (.typeError "enabled")
  | some customDomain =>
    let enabled := customDomain.enabled
    if enabled = JSValue.undefined then .ok true
    else
      match enabled with
      | .bool b => .ok b
      | _ =>
        if enabled.typeof = "string" ∧ enabled = JSValue.string "true" then .ok true
        else if enabled.typeof = "string" ∧ enabled = JSValue.string "false" then .ok false
        else .error (.error
          ("serverless-certificate-creator: Ambiguous enablement boolean: '"
            ++ enabled.toTemplate ++ "'"))

/-- Lines 27-41. -/
def initializeVariables (self : CreateCertificatePlugin) :
    Except JSError CreateCertificatePlugin :=
  if !self.initialized then
    match evaluateEnabled self with
    | .error e => .error e
    | .ok enabled =>
      let self := { self with enabled := some enabled }
      let self :=
        if enabled then
          { self with
            region := some
              (orDefault self.serverless.service.custom.customCertificate.region "us-east-1")
            domain := some self.serverless.service.custom.customCertificate.certificateName }
        else self
      .ok { self with initialized := true }
  else .ok self

/-- Lines 68-71. -/
def reportDisabled : Promise JSValue :=
  (Promise.resolve JSValue.undefined).next fun _ =>
    Promise.effect [Event.cliLog "serverless-certificate-creator: Custom domain is disabled."]
      (Promise.resolve JSValue.undefined)

/-- Lines 73-75. -/
def listCertificates (aws : AWS) : Promise ListCertificatesResponse :=
  ⟨[Event.listCertificates], aws.listCertificates⟩

/-- Lines 77-86. -/
def getExistingCertificate (self : CreateCertificatePlugin) (aws : AWS) :
    Promise (Option CertificateSummary) :=
  (listCertificates aws).next fun data =>
    let existingCerts :=
      data.CertificateSummaryList.filter fun cert => decide (some cert.DomainName = self.domain)
    if existingCerts.length > 0 then Promise.resolve existingCerts[0]?
    else Promise.resolve none

/-- Lines 107-116: the parameters of the certificate request.  The object that
`Object.assign` builds from a fresh target is not assigned to anything. -/
def requestCertificateParams (self : CreateCertificatePlugin) : RequestCertificateParams :=
  let params : RequestCertificateParams :=
    { DomainName := self.domain, ValidationMethod := "DNS", IdempotencyToken := none }
  let idempotencyToken := self.serverless.service.custom.customCertificate.idempotencyToken
  if truthy idempotencyToken then
    let _assigned : RequestCertificateParams :=
      { params with IdempotencyToken := idempotencyToken }
    params
  else params

/-- Lines 127-147: the parameters of the record change.  Reading `ResourceRecord` of a
missing first validation option, or `Name` of a missing resource record, raises a
TypeError. -/
def changeResourceRecordSetsParams (self : CreateCertificatePlugin)
    (certificate : DescribeCertificateResponse) : Except JSError ChangeResourceRecordSetsParams :=
  match certificate.Certificate.DomainValidationOptions[0]? with
  | none => .error (.typeError "ResourceRecord")
  | some first =>
    match first.ResourceRecord with
    | none => .error (.typeError "Name")
    | some record =>
      .ok
        { ChangeBatch :=
            { Changes :=
                [{ Action := "CREATE"
                   ResourceRecordSet :=
                     { Name := record.Name
                       ResourceRecords := [{ Value := record.Value }]
                       TTL := 60
                       Type_ := record.Type_ } }]
              Comment := "DNS Validation for certificate " ++ first.DomainName }
          HostedZoneId := self.serverless.service.custom.customCertificate.hostedZoneId }

/-- Lines 148-155: the record change and its two callbacks. -/
def changeRecordSets (aws : AWS) (params : ChangeResourceRecordSetsParams) : Promise JSValue :=
  ((⟨[Event.changeResourceRecordSets params], aws.changeResourceRecordSets params⟩ :
      Promise ChangeResourceRecordSetsResponse).next fun recordSetResult =>
    Promise.effect
      [Event.cliLog "dns validation record created - soon the certificate is functional",
       Event.consoleLogJson (Payload.changed recordSetResult)]
      (Promise.resolve JSValue.undefined)).handle fun error =>
    Promise.effect
      [Event.cliLogError "could not create record set for dns validation" error,
       Event.consoleLogError "problem" error]
      (Promise.reject error)

/-- Lines 125-161: the delay, the describe call and its callbacks.  The promise of the
record change is not returned from the callback. -/
def describeAndValidate (self : CreateCertificatePlugin) (aws : AWS)
    (params : DescribeCertificateParams) : Promise JSValue :=
  (⟨[Event.delay 10000], .fulfilled ()⟩ : Promise Unit).next fun _ =>
    ((⟨[Event.describeCertificate params], aws.describeCertificate params⟩ :
        Promise DescribeCertificateResponse).next fun certificate =>
      Promise.effect [Event.cliLogJson "got cert info: " (Payload.described certificate)]
        (match changeResourceRecordSetsParams self certificate with
         | .error e => Promise.reject e
         | .ok params =>
           Promise.effect (Promise.floating (changeRecordSets aws params))
             (Promise.resolve JSValue.undefined))).handle fun error =>
      Promise.effect
        [Event.cliLogError "could not get cert info" error,
         Event.consoleLogError "problem" error]
        (Promise.reject error)

/-- Lines 107-168: the request and what follows it. -/
def requestAndValidate (self : CreateCertificatePlugin) (aws : AWS) : Promise JSValue :=
  let params := requestCertificateParams self
  ((⟨[Event.requestCertificate params], aws.requestCertificate params⟩ :
      Promise RequestCertificateResponse).next fun requestCertificateResponse =>
    Promise.effect
      [Event.cliLogJson "requested cert:" (Payload.requested requestCertificateResponse)]
      (describeAndValidate self aws
        { CertificateArn := requestCertificateResponse.CertificateArn })).handle fun error =>
    Promise.effect
      [Event.cliLogError "could not request cert" error,
       Event.consoleLogError "problem" error]
      (Promise.reject error)

/-- Lines 93-176. -/
def createCertificate (self : CreateCertificatePlugin) (aws : AWS) : HookResult :=
  match initializeVariables self with
  | .error e => ⟨self, [], .threw e⟩
  | .ok self =>
    if !(self.enabled.getD false) then HookResult.ofPromise self reportDisabled
    else
      HookResult.ofPromise self <|
        Promise.effect
          [Event.cliLog ("Trying to create certificate for " ++ templateOf self.domain
            ++ " in " ++ templateOf self.region ++ " ...")]
          (((getExistingCertificate self aws).next fun existingCert =>
            match existingCert with
            | some _ =>
              Promise.effect
                [Event.cliLog ("Certificate for " ++ templateOf self.domain ++ " in "
                  ++ templateOf self.region ++ " already exists. Skipping ...")]
                (Promise.resolve JSValue.undefined)
            | none => requestAndValidate self aws).handle fun error =>
            Promise.effect
              [Event.cliLogError "could not get certs" error,
               Event.consoleLogError "problem" error]
              (Promise.reject error))

/-- Lines 181-193.  Reading `CertificateArn` of an undefined certificate raises a
TypeError. -/
def certificateSummary (self : CreateCertificatePlugin) (aws : AWS) : HookResult :=
  match initializeVariables self with
  | .error e => ⟨self, [], .threw e⟩
  | .ok self =>
    if !(self.enabled.getD false) then HookResult.ofPromise self reportDisabled
    else
      HookResult.ofPromise self <|
        (getExistingCertificate self aws).next fun existingCertificate =>
          Promise.effect
            [Event.cliConsoleLog Style.yellowUnderline "Serverless Certificate Creator Summary",
             Event.cliConsoleLog Style.yellow "Certificate"]
            (match existingCertificate with
             | none => Promise.reject (.typeError "CertificateArn")
             | some cert =>
               Promise.effect
                 [Event.cliConsoleLog Style.plain
                   ("  " ++ cert.CertificateArn ++ " => " ++ cert.DomainName)]
                 (Promise.resolve (JSValue.bool true)))

/-! ## Reading a trace -/

/-- The remote operations. -/
inductive Op where
  | listCertificates
  | requestCertificate
  | describeCertificate
  | changeResourceRecordSets
  deriving DecidableEq, Repr

/-- The remote operation an event is a call of, if any. -/
def Event.op : Event → Option Op
  | .listCertificates => some .listCertificates
  | .requestCertificate _ => some .requestCertificate
  | .describeCertificate _ => some .describeCertificate
  | .changeResourceRecordSets _ => some .changeResourceRecordSets
  | _ => none

/-- Whether an event is a workflow step: a remote call or the delay. -/
def Event.isStep : Event → Bool
  | .delay _ => true
  | e => e.op.isSome

/-- The workflow steps of a trace, in order. -/
def steps (t : List Event) : List Event := t.filter Event.isStep

/-- The remote calls of a trace, in order. -/
def remoteCalls (t : List Event) : List Event := t.filter fun e => e.op.isSome

/-- How many times a remote operation is called in a trace. -/
def calls (op : Op) (t : List Event) : Nat := t.countP fun e => decide (e.op = some op)

/-! ## Auxiliary definitions for the statements -/

/-- The instance that `initializeVariables` leaves when the plug-in is enabled. -/
def initializedEnabled (serverless : Serverless) : CreateCertificatePlugin :=
  { serverless := serverless
    initialized := true
    enabled := some true
    region := some (orDefault serverless.service.custom.customCertificate.region "us-east-1")
    domain := some serverless.service.custom.customCertificate.certificateName }

/-- The first log line of an enabled run. -/
def tryingLine (self : CreateCertificatePlugin) : Event :=
  Event.cliLog ("Trying to create certificate for " ++ templateOf self.domain
    ++ " in " ++ templateOf self.region ++ " ...")

/-- The identifier an error is recognised by: the `name` of a runtime error or of a plain
`Error`, the `code` of a service error. -/
def JSError.kind : JSError → String
  | .typeError _ => "TypeError"
  | .error _ => "Error"
  | .service code _ => code

/-! ## Example inputs -/

/-- A configuration for the domain cert.example.com in the hosted zone Z123, with the
given `enabled` value and idempotency token. -/
def exampleServerless (enabled : JSValue) (idempotencyToken : Option String) : Serverless :=
  { service := { custom :=
      { customDomain := some { enabled := enabled }
        customCertificate :=
          { certificateName := "cert.example.com", hostedZoneId := "Z123",
            region := some "us-east-1", idempotencyToken := idempotencyToken } } } }

/-- The validation option of the example certificate. -/
def exampleValidation : DomainValidation :=
  { DomainName := "cert.example.com"
    ResourceRecord := some { Name := "_abc.example.com.", Value := "xyz123", Type_ := "CNAME" } }

/-- Remote services with the given listing, where the request gives the certificate
arn:cert:1, the description of a certificate has the given validation options, and the
record change settles as given. -/
def exampleAWS (listing : List CertificateSummary) (options : List DomainValidation)
    (change : Settled ChangeResourceRecordSetsResponse) : AWS :=
  { listCertificates := .fulfilled { CertificateSummaryList := listing }
    requestCertificate := fun _ => .fulfilled { CertificateArn := "arn:cert:1" }
    describeCertificate := fun _ =>
      .fulfilled { Certificate := { DomainValidationOptions := options } }
    changeResourceRecordSets := fun _ => change }

/-- An error of a remote service. -/
def exampleError : JSError := JSError.service "ThrottlingException" "Rate exceeded"

/-! ## Basic facts about the workflow -/

theorem HookResult.ofPromise_self (self : CreateCertificatePlugin) (p : Promise JSValue) :
    (HookResult.ofPromise self p).self = self := by
  unfold HookResult.ofPromise
  cases p.settled <;> rfl

theorem initializeVariables_new_enabled (serverless : Serverless)
    (h : evaluateEnabled (CreateCertificatePlugin.new serverless) = .ok true) :
    initializeVariables (CreateCertificatePlugin.new serverless)
      = .ok (initializedEnabled serverless) := by
  have h0 := h
  simp only [CreateCertificatePlugin.new] at h0
  simp [initializeVariables, h0, CreateCertificatePlugin.new, initializedEnabled]

theorem initializeVariables_initializedEnabled (serverless : Serverless) :
    initializeVariables (initializedEnabled serverless)
      = .ok (initializedEnabled serverless) := by
  simp [initializeVariables, initializedEnabled]

theorem getExistingCertificate_trace (self : CreateCertificatePlugin) (aws : AWS) :
    (getExistingCertificate self aws).trace = [Event.listCertificates] := by
  unfold getExistingCertificate listCertificates Promise.next
  cases aws.listCertificates with
  | fulfilled data =>
    simp only []
    split <;> simp [Promise.resolve]
  | rejected e => rfl

theorem getExistingCertificate_fulfilled (self : CreateCertificatePlugin) (aws : AWS)
    (data : ListCertificatesResponse) (h : aws.listCertificates = .fulfilled data) :
    (getExistingCertificate self aws).settled =
      .fulfilled (data.CertificateSummaryList.find?
        fun cert => decide (some cert.DomainName = self.domain)) := by
  unfold getExistingCertificate listCertificates Promise.next
  simp only [h]
  split
  · simp [Promise.resolve, ← List.head?_eq_getElem?]
  · rename_i hlen
    have hnil : List.filter (fun cert => decide (some cert.DomainName = self.domain))
        data.CertificateSummaryList = [] := by
      cases hf : List.filter (fun cert => decide (some cert.DomainName = self.domain))
          data.CertificateSummaryList with
      | nil => rfl
      | cons a t => simp [hf] at hlen
    have := List.filter_head? (fun cert => decide (some cert.DomainName = self.domain))
      data.CertificateSummaryList
    rw [hnil] at this
    simp only [Promise.resolve]
    rw [← this]
    rfl

theorem getExistingCertificate_rejected (self : CreateCertificatePlugin) (aws : AWS)
    (e : JSError) (h : aws.listCertificates = .rejected e) :
    (getExistingCertificate self aws).settled = .rejected e := by
  unfold getExistingCertificate listCertificates Promise.next
  simp only [h]

/-! ## The runs of `createCertificate`, case by case -/

theorem createCertificate_threw (self : CreateCertificatePlugin) (aws : AWS) (e : JSError)
    (hinit : initializeVariables self = .error e) :
    createCertificate self aws = { self := self, trace := [], outcome := .threw e } := by
  simp [createCertificate, hinit]

theorem createCertificate_disabled (self self' : CreateCertificatePlugin) (aws : AWS)
    (hinit : initializeVariables self = .ok self')
    (he : self'.enabled.getD false = false) :
    createCertificate self aws =
      { self := self'
        trace := [Event.cliLog "serverless-certificate-creator: Custom domain is disabled."]
        outcome := .resolved .undefined } := by
  simp [createCertificate, hinit, he, HookResult.ofPromise, reportDisabled, Promise.effect,
    Promise.next, Promise.resolve]

theorem createCertificate_exists (self self' : CreateCertificatePlugin) (aws : AWS)
    (l : List CertificateSummary) (cert : CertificateSummary)
    (hinit : initializeVariables self = .ok self')
    (he : self'.enabled = some true)
    (hl : aws.listCertificates = .fulfilled { CertificateSummaryList := l })
    (hfind : l.find? (fun cert => decide (some cert.DomainName = self'.domain)) = some cert) :
    createCertificate self aws =
      { self := self'
        trace :=
          [tryingLine self', Event.listCertificates,
           Event.cliLog ("Certificate for " ++ templateOf self'.domain ++ " in "
             ++ templateOf self'.region ++ " already exists. Skipping ...")]
        outcome := .resolved .undefined } := by
  have hs := getExistingCertificate_fulfilled self' aws _ hl
  have ht := getExistingCertificate_trace self' aws
  simp only [hfind] at hs
  simp [createCertificate, hinit, he, HookResult.ofPromise, Promise.effect, Promise.next,
    Promise.handle, hs, ht, Promise.resolve, tryingLine]

theorem createCertificate_list_rejected (self self' : CreateCertificatePlugin) (aws : AWS)
    (e : JSError)
    (hinit : initializeVariables self = .ok self')
    (he : self'.enabled = some true)
    (hl : aws.listCertificates = .rejected e) :
    createCertificate self aws =
      { self := self'
        trace :=
          [tryingLine self', Event.listCertificates,
           Event.cliLogError "could not get certs" e, Event.consoleLogError "problem" e]
        outcome := .rejected e } := by
  have hs := getExistingCertificate_rejected self' aws e hl
  have ht := getExistingCertificate_trace self' aws
  simp [createCertificate, hinit, he, HookResult.ofPromise, Promise.effect, Promise.next,
    Promise.handle, hs, ht, Promise.reject, tryingLine]

/-- An enabled run that finds no certificate for the domain continues with the request. -/
theorem createCertificate_absent (self self' : CreateCertificatePlugin) (aws : AWS)
    (l : List CertificateSummary)
    (hinit : initializeVariables self = .ok self')
    (he : self'.enabled = some true)
    (hl : aws.listCertificates = .fulfilled { CertificateSummaryList := l })
    (hfind : l.find? (fun cert => decide (some cert.DomainName = self'.domain)) = none) :
    createCertificate self aws =
      HookResult.ofPromise self'
        (Promise.effect [tryingLine self', Event.listCertificates]
          ((requestAndValidate self' aws).handle fun error =>
            Promise.effect
              [Event.cliLogError "could not get certs" error,
               Event.consoleLogError "problem" error]
              (Promise.reject error))) := by
  have hs := getExistingCertificate_fulfilled self' aws _ hl
  have ht := getExistingCertificate_trace self' aws
  simp only [hfind] at hs
  cases hq : (requestAndValidate self' aws).settled <;>
    simp [createCertificate, hinit, he, Promise.effect, Promise.next,
      Promise.handle, hs, ht, tryingLine, hq]

theorem requestAndValidate_request_rejected (self : CreateCertificatePlugin) (aws : AWS)
    (e : JSError)
    (hr : aws.requestCertificate (requestCertificateParams self) = .rejected e) :
    requestAndValidate self aws =
      { trace :=
          [Event.requestCertificate (requestCertificateParams self),
           Event.cliLogError "could not request cert" e, Event.consoleLogError "problem" e]
        settled := .rejected e } := by
  simp [requestAndValidate, hr, Promise.effect, Promise.next, Promise.handle, Promise.reject]

theorem requestAndValidate_describe_rejected (self : CreateCertificatePlugin) (aws : AWS)
    (response : RequestCertificateResponse) (e : JSError)
    (hr : aws.requestCertificate (requestCertificateParams self) = .fulfilled response)
    (hd : aws.describeCertificate { CertificateArn := response.CertificateArn } = .rejected e) :
    requestAndValidate self aws =
      { trace :=
          [Event.requestCertificate (requestCertificateParams self),
           Event.cliLogJson "requested cert:" (Payload.requested response),
           Event.delay 10000,
           Event.describeCertificate { CertificateArn := response.CertificateArn },
           Event.cliLogError "could not get cert info" e, Event.consoleLogError "problem" e,
           Event.cliLogError "could not request cert" e, Event.consoleLogError "problem" e]
        settled := .rejected e } := by
  simp [requestAndValidate, describeAndValidate, hr, hd, Promise.effect, Promise.next,
    Promise.handle, Promise.reject]

theorem requestAndValidate_params_threw (self : CreateCertificatePlugin) (aws : AWS)
    (response : RequestCertificateResponse) (certificate : DescribeCertificateResponse)
    (e : JSError)
    (hr : aws.requestCertificate (requestCertificateParams self) = .fulfilled response)
    (hd : aws.describeCertificate { CertificateArn := response.CertificateArn }
      = .fulfilled certificate)
    (hp : changeResourceRecordSetsParams self certificate = .error e) :
    requestAndValidate self aws =
      { trace :=
          [Event.requestCertificate (requestCertificateParams self),
           Event.cliLogJson "requested cert:" (Payload.requested response),
           Event.delay 10000,
           Event.describeCertificate { CertificateArn := response.CertificateArn },
           Event.cliLogJson "got cert info: " (Payload.described certificate),
           Event.cliLogError "could not get cert info" e, Event.consoleLogError "problem" e,
           Event.cliLogError "could not request cert" e, Event.consoleLogError "problem" e]
        settled := .rejected e } := by
  simp [requestAndValidate, describeAndValidate, hr, hd, hp, Promise.effect, Promise.next,
    Promise.handle, Promise.reject]

theorem requestAndValidate_change (self : CreateCertificatePlugin) (aws : AWS)
    (response : RequestCertificateResponse) (certificate : DescribeCertificateResponse)
    (params : ChangeResourceRecordSetsParams)
    (hr : aws.requestCertificate (requestCertificateParams self) = .fulfilled response)
    (hd : aws.describeCertificate { CertificateArn := response.CertificateArn }
      = .fulfilled certificate)
    (hp : changeResourceRecordSetsParams self certificate = .ok params) :
    requestAndValidate self aws =
      { trace :=
          [Event.requestCertificate (requestCertificateParams self),
           Event.cliLogJson "requested cert:" (Payload.requested response),
           Event.delay 10000,
           Event.describeCertificate { CertificateArn := response.CertificateArn },
           Event.cliLogJson "got cert info: " (Payload.described certificate)]
          ++ Promise.floating (changeRecordSets aws params)
        settled := .fulfilled .undefined } := by
  simp [requestAndValidate, describeAndValidate, hr, hd, hp, Promise.effect, Promise.next,
    Promise.handle, Promise.resolve]

theorem floating_changeRecordSets (aws : AWS) (params : ChangeResourceRecordSetsParams) :
    Promise.floating (changeRecordSets aws params) =
      match aws.changeResourceRecordSets params with
      | .fulfilled recordSetResult =>
        [Event.changeResourceRecordSets params,
         Event.cliLog "dns validation record created - soon the certificate is functional",
         Event.consoleLogJson (Payload.changed recordSetResult)]
      | .rejected e =>
        [Event.changeResourceRecordSets params,
         Event.cliLogError "could not create record set for dns validation" e,
         Event.consoleLogError "problem" e,
         Event.unhandledRejection e] := by
  cases h : aws.changeResourceRecordSets params <;>
    simp [changeRecordSets, Promise.floating, h, Promise.effect, Promise.next,
      Promise.handle, Promise.resolve, Promise.reject]

theorem steps_floating_changeRecordSets (aws : AWS) (params : ChangeResourceRecordSetsParams) :
    steps (Promise.floating (changeRecordSets aws params))
      = [Event.changeResourceRecordSets params] := by
  rw [floating_changeRecordSets]
  cases aws.changeResourceRecordSets params <;> simp [steps, Event.isStep, Event.op]

theorem calls_floating_changeRecordSets (aws : AWS) (params : ChangeResourceRecordSetsParams)
    (op : Op) :
    calls op (Promise.floating (changeRecordSets aws params))
      = if op = Op.changeResourceRecordSets then 1 else 0 := by
  rw [floating_changeRecordSets]
  cases aws.changeResourceRecordSets params <;> cases op <;> simp [calls, Event.op]

theorem calls_cons (op : Op) (ev : Event) (t : List Event) :
    calls op (ev :: t) = calls op t + if ev.op = some op then 1 else 0 := by
  simp [calls, List.countP_cons]

theorem calls_append (op : Op) (s t : List Event) :
    calls op (s ++ t) = calls op s + calls op t := by
  simp [calls, List.countP_append]

theorem createCertificate_absent_rejected (self self' : CreateCertificatePlugin) (aws : AWS)
    (l : List CertificateSummary) (t : List Event) (e : JSError)
    (hinit : initializeVariables self = .ok self')
    (he : self'.enabled = some true)
    (hl : aws.listCertificates = .fulfilled { CertificateSummaryList := l })
    (hfind : l.find? (fun cert => decide (some cert.DomainName = self'.domain)) = none)
    (hq : requestAndValidate self' aws = { trace := t, settled := .rejected e }) :
    createCertificate self aws =
      { self := self'
        trace := tryingLine self' :: Event.listCertificates :: t ++
          [Event.cliLogError "could not get certs" e, Event.consoleLogError "problem" e]
        outcome := .rejected e } := by
  rw [createCertificate_absent self self' aws l hinit he hl hfind, hq]
  simp [HookResult.ofPromise, Promise.effect, Promise.handle, Promise.reject]

theorem createCertificate_absent_fulfilled (self self' : CreateCertificatePlugin) (aws : AWS)
    (l : List CertificateSummary) (t : List Event) (v : JSValue)
    (hinit : initializeVariables self = .ok self')
    (he : self'.enabled = some true)
    (hl : aws.listCertificates = .fulfilled { CertificateSummaryList := l })
    (hfind : l.find? (fun cert => decide (some cert.DomainName = self'.domain)) = none)
    (hq : requestAndValidate self' aws = { trace := t, settled := .fulfilled v }) :
    createCertificate self aws =
      { self := self'
        trace := tryingLine self' :: Event.listCertificates :: t
        outcome := .resolved v } := by
  rw [createCertificate_absent self self' aws l hinit he hl hfind, hq]
  simp [HookResult.ofPromise, Promise.effect, Promise.handle]

theorem find_domain_none (l : List CertificateSummary) (d : String)
    (h : ∀ c ∈ l, c.DomainName ≠ d) :
    l.find? (fun cert => decide (some cert.DomainName = some d)) = none := by
  rw [List.find?_eq_none]
  intro c hc
  simpa using h c hc

theorem find_domain_some (l : List CertificateSummary) (d : String)
    (h : ∃ c ∈ l, c.DomainName = d) :
    ∃ cert, l.find? (fun cert => decide (some cert.DomainName = some d)) = some cert
      ∧ cert.DomainName = d := by
  cases hf : l.find? (fun cert => decide (some cert.DomainName = some d)) with
  | none =>
    rw [List.find?_eq_none] at hf
    obtain ⟨c, hc, hcd⟩ := h
    exact absurd (by simpa using hcd) (hf c hc)
  | some cert =>
    refine ⟨cert, rfl, ?_⟩
    have := List.find?_some hf
    simpa using this

theorem createCertificate_new_self (serverless : Serverless) (aws : AWS)
    (henabled : evaluateEnabled (CreateCertificatePlugin.new serverless) = .ok true) :
    (createCertificate (CreateCertificatePlugin.new serverless) aws).self
      = initializedEnabled serverless := by
  unfold createCertificate
  rw [initializeVariables_new_enabled serverless henabled]
  simp only []
  split <;> exact HookResult.ofPromise_self _ _

theorem initializeVariables_new_error (serverless : Serverless) (e : JSError)
    (h : evaluateEnabled (CreateCertificatePlugin.new serverless) = .error e) :
    initializeVariables (CreateCertificatePlugin.new serverless) = .error e := by
  have h0 := h
  simp only [CreateCertificatePlugin.new] at h0
  simp [initializeVariables, h0, CreateCertificatePlugin.new]

theorem initializeVariables_new_disabled (serverless : Serverless)
    (h : evaluateEnabled (CreateCertificatePlugin.new serverless) = .ok false) :
    initializeVariables (CreateCertificatePlugin.new serverless)
      = .ok { serverless := serverless, initialized := true, enabled := some false,
              region := none, domain := none } := by
  have h0 := h
  simp only [CreateCertificatePlugin.new] at h0
  simp [initializeVariables, h0, CreateCertificatePlugin.new]

/-! ## The existence check -/

/-- C2: for a listing `l` and the configured domain `d`, `getExistingCertificate` is
fulfilled with the first entry of `l`, in listing order, whose `DomainName` is exactly
`d` (every entry before it has another `DomainName`), and it is fulfilled with undefined
if and only if no entry of `l` has `DomainName = d`. -/
theorem getExistingCertificate_first_match (self : CreateCertificatePlugin) (aws : AWS)
    (l : List CertificateSummary) (d : String)
    (hd : self.domain = some d)
    (hl : aws.listCertificates = .fulfilled { CertificateSummaryList := l }) :
    (getExistingCertificate self aws).settled
        = .fulfilled (l.find? fun cert => decide (cert.DomainName = d)) ∧
    (∀ cert, (getExistingCertificate self aws).settled = .fulfilled (some cert) →
      cert.DomainName = d ∧
      ∃ before after, l = before ++ cert :: after ∧ ∀ c ∈ before, c.DomainName ≠ d) ∧
    ((getExistingCertificate self aws).settled = .fulfilled none ↔
      ∀ c ∈ l, c.DomainName ≠ d) := by
  have hs := getExistingCertificate_fulfilled self aws _ hl
  simp only [hd, Option.some.injEq] at hs
  refine ⟨hs, ?_, ?_⟩
  · intro cert hc
    rw [hs] at hc
    have hfind := Settled.fulfilled.inj hc
    rw [List.find?_eq_some] at hfind
    obtain ⟨hp, before, after, hsplit, hbefore⟩ := hfind
    refine ⟨by simpa using hp, before, after, hsplit, ?_⟩
    intro c hc
    simpa using hbefore c hc
  · rw [hs]
    constructor
    · intro h
      have hfind := Settled.fulfilled.inj h
      rw [List.find?_eq_none] at hfind
      intro c hc
      simpa using hfind c hc
    · intro h
      congr 1
      rw [List.find?_eq_none]
      intro c hc
      simpa using h c hc

/-- C2, at the listing with the domains a.example.com and b.example.com and the
configured domain b.example.com: the b.example.com entry is selected. -/
theorem getExistingCertificate_first_match_witness :
    (getExistingCertificate
      { serverless := { service := { custom :=
          { customDomain := none
            customCertificate :=
              { certificateName := "b.example.com", hostedZoneId := "Z123",
                region := none, idempotencyToken := none } } } }
        initialized := true, enabled := some true, region := some "us-east-1",
        domain := some "b.example.com" }
      { listCertificates := .fulfilled { CertificateSummaryList :=
          [{ CertificateArn := "arn:cert:a", DomainName := "a.example.com" },
           { CertificateArn := "arn:cert:b", DomainName := "b.example.com" },
           { CertificateArn := "arn:cert:B", DomainName := "B.example.com" },
           { CertificateArn := "arn:cert:b2", DomainName := "b.example.com" }] }
        requestCertificate := fun _ => .rejected (.service "Unused" "")
        describeCertificate := fun _ => .rejected (.service "Unused" "")
        changeResourceRecordSets := fun _ => .rejected (.service "Unused" "") }).settled
      = .fulfilled (some { CertificateArn := "arn:cert:b", DomainName := "b.example.com" }) :=
  (getExistingCertificate_first_match _ _ _ "b.example.com" rfl rfl).1.trans (by decide)

/-! ## Re-running against an existing certificate -/

/-- C1: for an enabled configuration, on a fresh plug-in instance or on the instance left
by an earlier `createCertificate` run, when the listing contains a certificate whose
`DomainName` is the configured domain, `createCertificate` calls `listCertificates`
exactly once, makes no `requestCertificate`, `describeCertificate` or
`changeResourceRecordSets` call (its only workflow step is the listing), and its promise
is fulfilled. -/
theorem createCertificate_existing_is_noop (serverless : Serverless) (first aws : AWS)
    (self : CreateCertificatePlugin) (l : List CertificateSummary)
    (henabled : evaluateEnabled (CreateCertificatePlugin.new serverless) = .ok true)
    (hself : self = CreateCertificatePlugin.new serverless ∨
      self = (createCertificate (CreateCertificatePlugin.new serverless) first).self)
    (hl : aws.listCertificates = .fulfilled { CertificateSummaryList := l })
    (hmatch : ∃ c ∈ l,
      c.DomainName = serverless.service.custom.customCertificate.certificateName) :
    calls Op.listCertificates (createCertificate self aws).trace = 1 ∧
    calls Op.requestCertificate (createCertificate self aws).trace = 0 ∧
    calls Op.describeCertificate (createCertificate self aws).trace = 0 ∧
    calls Op.changeResourceRecordSets (createCertificate self aws).trace = 0 ∧
    steps (createCertificate self aws).trace = [Event.listCertificates] ∧
    (createCertificate self aws).outcome = Outcome.resolved JSValue.undefined := by
  have hinit : initializeVariables self = .ok (initializedEnabled serverless) := by
    rcases hself with h | h
    · rw [h]
      exact initializeVariables_new_enabled serverless henabled
    · rw [h, createCertificate_new_self serverless first henabled]
      exact initializeVariables_initializedEnabled serverless
  obtain ⟨cert, hfind, _⟩ := find_domain_some l _ hmatch
  rw [createCertificate_exists self _ aws l cert hinit rfl hl hfind]
  simp [calls, steps, Event.op, Event.isStep, tryingLine]

/-- C1, at a second run on the instance left by a first run that requested arn:cert:1,
the second listing showing that certificate. -/
theorem createCertificate_existing_is_noop_witness :
    steps (createCertificate
        (createCertificate (CreateCertificatePlugin.new (exampleServerless .undefined none))
          (exampleAWS [] [exampleValidation] (.fulfilled { ChangeInfoId := "chg-1" }))).self
        (exampleAWS [{ CertificateArn := "arn:cert:1", DomainName := "cert.example.com" }]
          [exampleValidation] (.fulfilled { ChangeInfoId := "chg-1" }))).trace
      = [Event.listCertificates] ∧
    (createCertificate
        (createCertificate (CreateCertificatePlugin.new (exampleServerless .undefined none))
          (exampleAWS [] [exampleValidation] (.fulfilled { ChangeInfoId := "chg-1" }))).self
        (exampleAWS [{ CertificateArn := "arn:cert:1", DomainName := "cert.example.com" }]
          [exampleValidation] (.fulfilled { ChangeInfoId := "chg-1" }))).outcome
      = Outcome.resolved JSValue.undefined :=
  (createCertificate_existing_is_noop (exampleServerless .undefined none)
    (exampleAWS [] [exampleValidation] (.fulfilled { ChangeInfoId := "chg-1" }))
    (exampleAWS [{ CertificateArn := "arn:cert:1", DomainName := "cert.example.com" }]
      [exampleValidation] (.fulfilled { ChangeInfoId := "chg-1" }))
    _ [{ CertificateArn := "arn:cert:1", DomainName := "cert.example.com" }]
    rfl (Or.inr rfl) rfl (by decide)).2.2.2.2

/-! ## Enablement -/

/-- C8: with `customDomain.enabled = v`, `evaluateEnabled` returns true for an undefined
`v`, returns `b` for a boolean `b`, returns true for the string "true" and false for the
string "false", and throws for every other value; for every other string the message of
the thrown error quotes the offending value. -/
theorem evaluateEnabled_tristate (self : CreateCertificatePlugin) (v : JSValue)
    (hv : self.serverless.service.custom.customDomain = some { enabled := v }) :
    (v = JSValue.undefined → evaluateEnabled self = .ok true) ∧
    (∀ b, v = JSValue.bool b → evaluateEnabled self = .ok b) ∧
    (v = JSValue.string "true" → evaluateEnabled self = .ok true) ∧
    (v = JSValue.string "false" → evaluateEnabled self = .ok false) ∧
    (v ≠ JSValue.undefined → (∀ b, v ≠ JSValue.bool b) → v ≠ JSValue.string "true" →
      v ≠ JSValue.string "false" →
      evaluateEnabled self = .error (.error
        ("serverless-certificate-creator: Ambiguous enablement boolean: '"
          ++ v.toTemplate ++ "'"))) ∧
    (∀ s, v = JSValue.string s → s ≠ "true" → s ≠ "false" →
      evaluateEnabled self = .error (.error
        ("serverless-certificate-creator: Ambiguous enablement boolean: '" ++ s ++ "'"))) := by
  refine ⟨?_, ?_, ?_, ?_, ?_, ?_⟩
  · intro h
    subst h
    simp [evaluateEnabled, hv]
  · intro b h
    subst h
    simp [evaluateEnabled, hv]
  · intro h
    subst h
    simp [evaluateEnabled, hv, JSValue.typeof]
  · intro h
    subst h
    simp [evaluateEnabled, hv, JSValue.typeof]
  · intro h1 h2 h3 h4
    cases v with
    | undefined => exact absurd rfl h1
    | bool b => exact absurd rfl (h2 b)
    | null => simp [evaluateEnabled, hv]
    | number r => simp [evaluateEnabled, hv]
    | string s => simp [evaluateEnabled, hv, h3, h4]
    | object r => simp [evaluateEnabled, hv]
  · intro s h h3 h4
    subst h
    simp [evaluateEnabled, hv, h3, h4, JSValue.toTemplate]

/-- C8, at a configuration whose `enabled` is the string "maybe". -/
theorem evaluateEnabled_tristate_witness :
    evaluateEnabled (CreateCertificatePlugin.new (exampleServerless (.string "maybe") none))
      = .error (.error
          "serverless-certificate-creator: Ambiguous enablement boolean: 'maybe'") :=
  (evaluateEnabled_tristate _ (JSValue.string "maybe") rfl).2.2.2.2.2 "maybe" rfl
    (by decide) (by decide)

/-- C9: on a fresh instance whose enablement flag does not resolve to true,
`createCertificate` makes no remote call at all; when the flag resolves to false (the
boolean false or the string "false") it logs the disabled status and its promise is
fulfilled; when `evaluateEnabled` throws, `createCertificate` throws that error having
done nothing. -/
theorem createCertificate_no_remote_call_unless_enabled (serverless : Serverless) (aws : AWS)
    (h : evaluateEnabled (CreateCertificatePlugin.new serverless) ≠ .ok true) :
    remoteCalls (createCertificate (CreateCertificatePlugin.new serverless) aws).trace = [] ∧
    (∀ op, calls op (createCertificate (CreateCertificatePlugin.new serverless) aws).trace = 0) ∧
    (evaluateEnabled (CreateCertificatePlugin.new serverless) = .ok false →
      (createCertificate (CreateCertificatePlugin.new serverless) aws).trace
        = [Event.cliLog "serverless-certificate-creator: Custom domain is disabled."] ∧
      (createCertificate (CreateCertificatePlugin.new serverless) aws).outcome
        = Outcome.resolved JSValue.undefined) ∧
    (∀ v, serverless.service.custom.customDomain = some { enabled := v } →
      v = JSValue.bool false ∨ v = JSValue.string "false" →
      (createCertificate (CreateCertificatePlugin.new serverless) aws).trace
        = [Event.cliLog "serverless-certificate-creator: Custom domain is disabled."] ∧
      (createCertificate (CreateCertificatePlugin.new serverless) aws).outcome
        = Outcome.resolved JSValue.undefined) ∧
    (∀ e, evaluateEnabled (CreateCertificatePlugin.new serverless) = .error e →
      (createCertificate (CreateCertificatePlugin.new serverless) aws).trace = [] ∧
      (createCertificate (CreateCertificatePlugin.new serverless) aws).outcome
        = Outcome.threw e) := by
  have hfalse : evaluateEnabled (CreateCertificatePlugin.new serverless) = .ok false →
      createCertificate (CreateCertificatePlugin.new serverless) aws =
        { self := { serverless := serverless, initialized := true, enabled := some false,
                    region := none, domain := none }
          trace := [Event.cliLog "serverless-certificate-creator: Custom domain is disabled."]
          outcome := Outcome.resolved JSValue.undefined } := fun hev =>
    createCertificate_disabled _ _ aws (initializeVariables_new_disabled serverless hev) rfl
  have herr : ∀ e, evaluateEnabled (CreateCertificatePlugin.new serverless) = .error e →
      createCertificate (CreateCertificatePlugin.new serverless) aws =
        { self := CreateCertificatePlugin.new serverless, trace := [],
          outcome := Outcome.threw e } := fun e hev =>
    createCertificate_threw _ aws e (initializeVariables_new_error serverless e hev)
  refine ⟨?_, ?_, ?_, ?_, ?_⟩
  · cases hev : evaluateEnabled (CreateCertificatePlugin.new serverless) with
    | error e => rw [herr e hev]; rfl
    | ok b =>
      cases b with
      | true => exact absurd hev h
      | false => rw [hfalse hev]; rfl
  · intro op
    cases hev : evaluateEnabled (CreateCertificatePlugin.new serverless) with
    | error e => rw [herr e hev]; rfl
    | ok b =>
      cases b with
      | true => exact absurd hev h
      | false => rw [hfalse hev]; simp [calls, Event.op]
  · intro hev
    rw [hfalse hev]
    exact ⟨rfl, rfl⟩
  · intro v hv hcases
    have hev : evaluateEnabled (CreateCertificatePlugin.new serverless) = .ok false := by
      rcases hcases with hb | hs
      · subst hb
        simp [evaluateEnabled, CreateCertificatePlugin.new, hv]
      · subst hs
        simp [evaluateEnabled, CreateCertificatePlugin.new, hv, JSValue.typeof]
    rw [hfalse hev]
    exact ⟨rfl, rfl⟩
  · intro e hev
    rw [herr e hev]
    exact ⟨rfl, rfl⟩

/-- C9, at the `enabled` values "maybe" (the run throws before any call) and "false"
(the run logs the disabled status and succeeds). -/
theorem createCertificate_no_remote_call_unless_enabled_witness :
    ((createCertificate (CreateCertificatePlugin.new (exampleServerless (.string "maybe") none))
        (exampleAWS [] [exampleValidation] (.fulfilled { ChangeInfoId := "chg-1" }))).trace = [] ∧
      (createCertificate (CreateCertificatePlugin.new (exampleServerless (.string "maybe") none))
        (exampleAWS [] [exampleValidation] (.fulfilled { ChangeInfoId := "chg-1" }))).outcome
        = Outcome.threw (JSError.error
            "serverless-certificate-creator: Ambiguous enablement boolean: 'maybe'")) ∧
    ((createCertificate (CreateCertificatePlugin.new (exampleServerless (.string "false") none))
        (exampleAWS [] [exampleValidation] (.fulfilled { ChangeInfoId := "chg-1" }))).trace
        = [Event.cliLog "serverless-certificate-creator: Custom domain is disabled."] ∧
      (createCertificate (CreateCertificatePlugin.new (exampleServerless (.string "false") none))
        (exampleAWS [] [exampleValidation] (.fulfilled { ChangeInfoId := "chg-1" }))).outcome
        = Outcome.resolved JSValue.undefined) :=
  ⟨(createCertificate_no_remote_call_unless_enabled
      (exampleServerless (.string "maybe") none)
      (exampleAWS [] [exampleValidation] (.fulfilled { ChangeInfoId := "chg-1" }))
      (by simp [evaluateEnabled, exampleServerless, CreateCertificatePlugin.new,
        JSValue.typeof])).2.2.2.2 _ rfl,
   (createCertificate_no_remote_call_unless_enabled
      (exampleServerless (.string "false") none)
      (exampleAWS [] [exampleValidation] (.fulfilled { ChangeInfoId := "chg-1" }))
      (by simp [evaluateEnabled, exampleServerless, CreateCertificatePlugin.new,
        JSValue.typeof])).2.2.2.1 _ rfl (Or.inr rfl)⟩

/-! ## Failures of the certificate authority steps -/

/-- C7: for an enabled configuration and an error `e`: if `listCertificates` fails with
`e`; or if the listing has no certificate for the domain and `requestCertificate` fails
with `e`; or if the request gives the certificate `a` and `describeCertificate` of `a`
fails with `e`; then the promise of `createCertificate` is rejected with `e` itself, the
failed step is the last workflow step of the run (no later step is invoked, in particular
no `changeResourceRecordSets`), and every remote operation is called at most once. -/
theorem createCertificate_aborts_on_ca_failure (serverless : Serverless) (e : JSError)
    (henabled : evaluateEnabled (CreateCertificatePlugin.new serverless) = .ok true) :
    (∀ aws : AWS, aws.listCertificates = .rejected e →
      (createCertificate (CreateCertificatePlugin.new serverless) aws).outcome
        = Outcome.rejected e ∧
      steps (createCertificate (CreateCertificatePlugin.new serverless) aws).trace
        = [Event.listCertificates] ∧
      ∀ op, calls op (createCertificate (CreateCertificatePlugin.new serverless) aws).trace
        ≤ 1) ∧
    (∀ (aws : AWS) (l : List CertificateSummary),
      aws.listCertificates = .fulfilled { CertificateSummaryList := l } →
      (∀ c ∈ l, c.DomainName ≠ serverless.service.custom.customCertificate.certificateName) →
      aws.requestCertificate (requestCertificateParams (initializedEnabled serverless))
        = .rejected e →
      (createCertificate (CreateCertificatePlugin.new serverless) aws).outcome
        = Outcome.rejected e ∧
      steps (createCertificate (CreateCertificatePlugin.new serverless) aws).trace
        = [Event.listCertificates,
           Event.requestCertificate (requestCertificateParams (initializedEnabled serverless))] ∧
      ∀ op, calls op (createCertificate (CreateCertificatePlugin.new serverless) aws).trace
        ≤ 1) ∧
    (∀ (aws : AWS) (l : List CertificateSummary) (a : String),
      aws.listCertificates = .fulfilled { CertificateSummaryList := l } →
      (∀ c ∈ l, c.DomainName ≠ serverless.service.custom.customCertificate.certificateName) →
      aws.requestCertificate (requestCertificateParams (initializedEnabled serverless))
        = .fulfilled { CertificateArn := a } →
      aws.describeCertificate { CertificateArn := a } = .rejected e →
      (createCertificate (CreateCertificatePlugin.new serverless) aws).outcome
        = Outcome.rejected e ∧
      steps (createCertificate (CreateCertificatePlugin.new serverless) aws).trace
        = [Event.listCertificates,
           Event.requestCertificate (requestCertificateParams (initializedEnabled serverless)),
           Event.delay 10000,
           Event.describeCertificate { CertificateArn := a }] ∧
      ∀ op, calls op (createCertificate (CreateCertificatePlugin.new serverless) aws).trace
        ≤ 1) := by
  have hinit := initializeVariables_new_enabled serverless henabled
  refine ⟨?_, ?_, ?_⟩
  · intro aws hl
    rw [createCertificate_list_rejected _ _ aws e hinit rfl hl]
    refine ⟨rfl, ?_, ?_⟩
    · simp [steps, Event.isStep, Event.op, tryingLine]
    · intro op
      cases op <;> simp [calls, Event.op, tryingLine]
  · intro aws l hl habsent hr
    rw [createCertificate_absent_rejected _ _ aws l _ e hinit rfl hl
      (find_domain_none l _ habsent) (requestAndValidate_request_rejected _ aws e hr)]
    refine ⟨rfl, ?_, ?_⟩
    · simp [steps, Event.isStep, Event.op, tryingLine]
    · intro op
      cases op <;> simp [calls, Event.op, tryingLine]
  · intro aws l a hl habsent hr hd
    rw [createCertificate_absent_rejected _ _ aws l _ e hinit rfl hl
      (find_domain_none l _ habsent)
      (requestAndValidate_describe_rejected _ aws { CertificateArn := a } e hr hd)]
    refine ⟨rfl, ?_, ?_⟩
    · simp [steps, Event.isStep, Event.op, tryingLine]
    · intro op
      cases op <;> simp [calls, Event.op, tryingLine]

/-- C7, at remote services whose `listCertificates`, whose `requestCertificate` and whose
`describeCertificate` fails with a throttling error. -/
theorem createCertificate_aborts_on_ca_failure_witness :
    (createCertificate (CreateCertificatePlugin.new (exampleServerless .undefined none))
      { listCertificates := .rejected exampleError
        requestCertificate := fun _ => .fulfilled { CertificateArn := "arn:cert:1" }
        describeCertificate := fun _ => .rejected exampleError
        changeResourceRecordSets := fun _ => .fulfilled { ChangeInfoId := "chg-1" } }).outcome
      = Outcome.rejected exampleError ∧
    (createCertificate (CreateCertificatePlugin.new (exampleServerless .undefined none))
      { listCertificates := .fulfilled { CertificateSummaryList := [] }
        requestCertificate := fun _ => .rejected exampleError
        describeCertificate := fun _ => .rejected exampleError
        changeResourceRecordSets := fun _ => .fulfilled { ChangeInfoId := "chg-1" } }).outcome
      = Outcome.rejected exampleError ∧
    (createCertificate (CreateCertificatePlugin.new (exampleServerless .undefined none))
      { listCertificates := .fulfilled { CertificateSummaryList := [] }
        requestCertificate := fun _ => .fulfilled { CertificateArn := "arn:cert:1" }
        describeCertificate := fun _ => .rejected exampleError
        changeResourceRecordSets := fun _ => .fulfilled { ChangeInfoId := "chg-1" } }).outcome
      = Outcome.rejected exampleError :=
  ⟨((createCertificate_aborts_on_ca_failure (exampleServerless .undefined none) exampleError
      rfl).1
      { listCertificates := .rejected exampleError
        requestCertificate := fun _ => .fulfilled { CertificateArn := "arn:cert:1" }
        describeCertificate := fun _ => .rejected exampleError
        changeResourceRecordSets := fun _ => .fulfilled { ChangeInfoId := "chg-1" } }
      rfl).1,
   ((createCertificate_aborts_on_ca_failure (exampleServerless .undefined none) exampleError
      rfl).2.1
      { listCertificates := .fulfilled { CertificateSummaryList := [] }
        requestCertificate := fun _ => .rejected exampleError
        describeCertificate := fun _ => .rejected exampleError
        changeResourceRecordSets := fun _ => .fulfilled { ChangeInfoId := "chg-1" } }
      [] rfl (by decide) rfl).1,
   ((createCertificate_aborts_on_ca_failure (exampleServerless .undefined none) exampleError
      rfl).2.2
      { listCertificates := .fulfilled { CertificateSummaryList := [] }
        requestCertificate := fun _ => .fulfilled { CertificateArn := "arn:cert:1" }
        describeCertificate := fun _ => .rejected exampleError
        changeResourceRecordSets := fun _ => .fulfilled { ChangeInfoId := "chg-1" } }
      [] "arn:cert:1" rfl (by decide) rfl rfl).1⟩

/-! ## The successful sequence -/

/-- C5: for an enabled configuration where the listing has no certificate for the domain,
the request gives the certificate `a` and the description of `a` has the first validation
option with `DomainName` `n` and the resource record `record`, the workflow steps of
`createCertificate` are, once each and in this order, `listCertificates`,
`requestCertificate`, the delay, `describeCertificate` of `a` and
`changeResourceRecordSets`; the change request has the configured `hostedZoneId` and one
change: action CREATE, TTL 60, name and type of `record`, one resource record with the
value of `record`, and the comment "DNS Validation for certificate " followed by `n`.
Each remote operation is called exactly once. -/
theorem createCertificate_happy_path_steps (serverless : Serverless) (aws : AWS)
    (l : List CertificateSummary) (a n : String) (record : ResourceRecord)
    (others : List DomainValidation)
    (henabled : evaluateEnabled (CreateCertificatePlugin.new serverless) = .ok true)
    (hl : aws.listCertificates = .fulfilled { CertificateSummaryList := l })
    (habsent : ∀ c ∈ l,
      c.DomainName ≠ serverless.service.custom.customCertificate.certificateName)
    (hr : aws.requestCertificate (requestCertificateParams (initializedEnabled serverless))
      = .fulfilled { CertificateArn := a })
    (hd : aws.describeCertificate { CertificateArn := a } = .fulfilled
      { Certificate := { DomainValidationOptions :=
          { DomainName := n, ResourceRecord := some record } :: others } }) :
    steps (createCertificate (CreateCertificatePlugin.new serverless) aws).trace =
      [Event.listCertificates,
       Event.requestCertificate (requestCertificateParams (initializedEnabled serverless)),
       Event.delay 10000,
       Event.describeCertificate { CertificateArn := a },
       Event.changeResourceRecordSets
         { ChangeBatch :=
             { Changes :=
                 [{ Action := "CREATE"
                    ResourceRecordSet :=
                      { Name := record.Name
                        ResourceRecords := [{ Value := record.Value }]
                        TTL := 60
                        Type_ := record.Type_ } }]
               Comment := "DNS Validation for certificate " ++ n }
           HostedZoneId := serverless.service.custom.customCertificate.hostedZoneId }] ∧
    ∀ op, calls op (createCertificate (CreateCertificatePlugin.new serverless) aws).trace
      = 1 := by
  have hinit := initializeVariables_new_enabled serverless henabled
  have hp : changeResourceRecordSetsParams (initializedEnabled serverless)
      { Certificate := { DomainValidationOptions :=
          { DomainName := n, ResourceRecord := some record } :: others } } = .ok
        { ChangeBatch :=
            { Changes :=
                [{ Action := "CREATE"
                   ResourceRecordSet :=
                     { Name := record.Name
                       ResourceRecords := [{ Value := record.Value }]
                       TTL := 60
                       Type_ := record.Type_ } }]
              Comment := "DNS Validation for certificate " ++ n }
          HostedZoneId := serverless.service.custom.customCertificate.hostedZoneId } := by
    simp [changeResourceRecordSetsParams, initializedEnabled]
  rw [createCertificate_absent_fulfilled _ _ aws l _ _ hinit rfl hl
    (find_domain_none l _ habsent)
    (requestAndValidate_change _ aws { CertificateArn := a } _ _ hr hd hp)]
  have hsteps := steps_floating_changeRecordSets aws
    { ChangeBatch :=
        { Changes :=
            [{ Action := "CREATE"
               ResourceRecordSet :=
                 { Name := record.Name
                   ResourceRecords := [{ Value := record.Value }]
                   TTL := 60
                   Type_ := record.Type_ } }]
          Comment := "DNS Validation for certificate " ++ n }
      HostedZoneId := serverless.service.custom.customCertificate.hostedZoneId }
  constructor
  · simp only [steps] at hsteps ⊢
    simp [List.filter_cons, hsteps, Event.isStep, Event.op, tryingLine]
  · intro op
    simp only [calls_cons, calls_append, calls_floating_changeRecordSets]
    cases op <;> simp [calls, Event.op, tryingLine]

/-- C5, at the example of the specification: record name _abc.example.com., value xyz123,
type CNAME, hosted zone Z123. -/
theorem createCertificate_happy_path_steps_witness :
    steps (createCertificate (CreateCertificatePlugin.new (exampleServerless .undefined none))
      (exampleAWS [] [exampleValidation] (.fulfilled { ChangeInfoId := "chg-1" }))).trace =
      [Event.listCertificates,
       Event.requestCertificate
         { DomainName := some "cert.example.com", ValidationMethod := "DNS",
           IdempotencyToken := none },
       Event.delay 10000,
       Event.describeCertificate { CertificateArn := "arn:cert:1" },
       Event.changeResourceRecordSets
         { ChangeBatch :=
             { Changes :=
                 [{ Action := "CREATE"
                    ResourceRecordSet :=
                      { Name := "_abc.example.com."
                        ResourceRecords := [{ Value := "xyz123" }]
                        TTL := 60
                        Type_ := "CNAME" } }]
               Comment := "DNS Validation for certificate cert.example.com" }
           HostedZoneId := "Z123" }] :=
  (createCertificate_happy_path_steps (exampleServerless .undefined none)
    (exampleAWS [] [exampleValidation] (.fulfilled { ChangeInfoId := "chg-1" }))
    [] "arn:cert:1" "cert.example.com"
    { Name := "_abc.example.com.", Value := "xyz123", Type_ := "CNAME" } []
    rfl rfl (by decide) rfl rfl).1

/-! ## A certificate without validation options -/

/-- C6 as amended: for an enabled configuration where the listing has no certificate for
the domain, the request gives the certificate `a` and the description of `a` has an empty
list of validation options, the promise of `createCertificate` is rejected with the
TypeError raised by reading `ResourceRecord` of the missing first option, and
`changeResourceRecordSets` is never called: the last workflow step is the describe
call. -/
theorem createCertificate_empty_options_rejects (serverless : Serverless) (aws : AWS)
    (l : List CertificateSummary) (a : String)
    (henabled : evaluateEnabled (CreateCertificatePlugin.new serverless) = .ok true)
    (hl : aws.listCertificates = .fulfilled { CertificateSummaryList := l })
    (habsent : ∀ c ∈ l,
      c.DomainName ≠ serverless.service.custom.customCertificate.certificateName)
    (hr : aws.requestCertificate (requestCertificateParams (initializedEnabled serverless))
      = .fulfilled { CertificateArn := a })
    (hd : aws.describeCertificate { CertificateArn := a } = .fulfilled
      { Certificate := { DomainValidationOptions := [] } }) :
    (createCertificate (CreateCertificatePlugin.new serverless) aws).outcome
      = Outcome.rejected (JSError.typeError "ResourceRecord") ∧
    calls Op.changeResourceRecordSets
      (createCertificate (CreateCertificatePlugin.new serverless) aws).trace = 0 ∧
    steps (createCertificate (CreateCertificatePlugin.new serverless) aws).trace =
      [Event.listCertificates,
       Event.requestCertificate (requestCertificateParams (initializedEnabled serverless)),
       Event.delay 10000,
       Event.describeCertificate { CertificateArn := a }] := by
  have hinit := initializeVariables_new_enabled serverless henabled
  rw [createCertificate_absent_rejected _ _ aws l _ _ hinit rfl hl
    (find_domain_none l _ habsent)
    (requestAndValidate_params_threw _ aws { CertificateArn := a } _
      (JSError.typeError "ResourceRecord") hr hd
      (by simp [changeResourceRecordSetsParams]))]
  refine ⟨rfl, ?_, ?_⟩
  · simp [calls, Event.op, tryingLine]
  · simp [steps, Event.isStep, Event.op, tryingLine]

/-- C6 as amended, at the example configuration and a description without options. -/
theorem createCertificate_empty_options_rejects_witness :
    (createCertificate (CreateCertificatePlugin.new (exampleServerless .undefined none))
      (exampleAWS [] [] (.fulfilled { ChangeInfoId := "chg-1" }))).outcome
      = Outcome.rejected (JSError.typeError "ResourceRecord") ∧
    calls Op.changeResourceRecordSets
      (createCertificate (CreateCertificatePlugin.new (exampleServerless .undefined none))
        (exampleAWS [] [] (.fulfilled { ChangeInfoId := "chg-1" }))).trace = 0 :=
  ⟨(createCertificate_empty_options_rejects (exampleServerless .undefined none)
      (exampleAWS [] [] (.fulfilled { ChangeInfoId := "chg-1" }))
      [] "arn:cert:1" rfl rfl (by decide) rfl rfl).1,
   (createCertificate_empty_options_rejects (exampleServerless .undefined none)
      (exampleAWS [] [] (.fulfilled { ChangeInfoId := "chg-1" }))
      [] "arn:cert:1" rfl rfl (by decide) rfl rfl).2.1⟩

/-- C6 as stated fails: at the example configuration and a description without options,
the run does not fail with an error of the kind NoValidationChallenge; the error it is
rejected with is a TypeError. -/
theorem createCertificate_empty_options_not_NoValidationChallenge :
    (createCertificate (CreateCertificatePlugin.new (exampleServerless .undefined none))
      (exampleAWS [] [] (.fulfilled { ChangeInfoId := "chg-1" }))).outcome
      = Outcome.rejected (JSError.typeError "ResourceRecord") ∧
    ¬ ∃ e,
      ((createCertificate (CreateCertificatePlugin.new (exampleServerless .undefined none))
          (exampleAWS [] [] (.fulfilled { ChangeInfoId := "chg-1" }))).outcome
          = Outcome.rejected e ∨
        (createCertificate (CreateCertificatePlugin.new (exampleServerless .undefined none))
          (exampleAWS [] [] (.fulfilled { ChangeInfoId := "chg-1" }))).outcome
          = Outcome.threw e) ∧
      e.kind = "NoValidationChallenge" := by
  have hout : (createCertificate
      (CreateCertificatePlugin.new (exampleServerless .undefined none))
      (exampleAWS [] [] (.fulfilled { ChangeInfoId := "chg-1" }))).outcome
      = Outcome.rejected (JSError.typeError "ResourceRecord") := by decide
  refine ⟨hout, ?_⟩
  rintro ⟨e, hfail, hkind⟩
  rw [hout] at hfail
  rcases hfail with h | h
  · cases h
    revert hkind
    decide
  · cases h

/-! ## Defects -/

/-- C3, the code at a configuration with the idempotency token tok-1: the parameters of
the one `requestCertificate` call carry no `IdempotencyToken`. -/
theorem createCertificate_drops_idempotencyToken :
    (createCertificate
        (CreateCertificatePlugin.new (exampleServerless .undefined (some "tok-1")))
        (exampleAWS [] [exampleValidation] (.fulfilled { ChangeInfoId := "chg-1" }))).trace.filter
      (fun ev => decide (ev.op = some Op.requestCertificate))
      = [Event.requestCertificate
          { DomainName := some "cert.example.com", ValidationMethod := "DNS",
            IdempotencyToken := none }] := by
  decide

/-- C4, the code at remote services whose `changeResourceRecordSets` fails with a
throttling error: the promise of `createCertificate` is fulfilled, and the rejection of
the record change reaches no handler. -/
theorem createCertificate_swallows_dns_failure :
    (createCertificate (CreateCertificatePlugin.new (exampleServerless .undefined none))
      (exampleAWS [] [exampleValidation] (.rejected exampleError))).outcome
      = Outcome.resolved JSValue.undefined ∧
    (createCertificate (CreateCertificatePlugin.new (exampleServerless .undefined none))
      (exampleAWS [] [exampleValidation] (.rejected exampleError))).trace.filter
      (fun ev => decide (ev.op = some Op.changeResourceRecordSets) ||
        decide (ev = Event.unhandledRejection exampleError))
      = [Event.changeResourceRecordSets
          { ChangeBatch :=
              { Changes :=
                  [{ Action := "CREATE"
                     ResourceRecordSet :=
                       { Name := "_abc.example.com."
                         ResourceRecords := [{ Value := "xyz123" }]
                         TTL := 60
                         Type_ := "CNAME" } }]
                Comment := "DNS Validation for certificate cert.example.com" }
            HostedZoneId := "Z123" },
         Event.unhandledRejection exampleError] := by
  decide

/-! ## The summary reporter -/

/-- C10: for an enabled configuration and a listing `l`, if some certificate of `l` has
the configured domain then `certificateSummary` emits, after its two heading lines, the
line made of two blanks, the `CertificateArn`, " => " and the `DomainName` of the first
matching certificate (the one `getExistingCertificate` selects) and its promise is
fulfilled with true; if no certificate of `l` matches, it emits the headings only and its
promise is rejected with a TypeError. -/
theorem certificateSummary_reports_first_match (serverless : Serverless) (aws : AWS)
    (l : List CertificateSummary)
    (henabled : evaluateEnabled (CreateCertificatePlugin.new serverless) = .ok true)
    (hl : aws.listCertificates = .fulfilled { CertificateSummaryList := l }) :
    ((∃ c ∈ l, c.DomainName = serverless.service.custom.customCertificate.certificateName) →
      ∃ cert,
        (getExistingCertificate (initializedEnabled serverless) aws).settled
          = .fulfilled (some cert) ∧
        l.find? (fun c => decide
          (c.DomainName = serverless.service.custom.customCertificate.certificateName))
          = some cert ∧
        (certificateSummary (CreateCertificatePlugin.new serverless) aws).trace =
          [Event.listCertificates,
           Event.cliConsoleLog Style.yellowUnderline "Serverless Certificate Creator Summary",
           Event.cliConsoleLog Style.yellow "Certificate",
           Event.cliConsoleLog Style.plain
             ("  " ++ cert.CertificateArn ++ " => " ++ cert.DomainName)] ∧
        (certificateSummary (CreateCertificatePlugin.new serverless) aws).outcome
          = Outcome.resolved (JSValue.bool true)) ∧
    ((∀ c ∈ l, c.DomainName ≠ serverless.service.custom.customCertificate.certificateName) →
      (certificateSummary (CreateCertificatePlugin.new serverless) aws).trace =
        [Event.listCertificates,
         Event.cliConsoleLog Style.yellowUnderline "Serverless Certificate Creator Summary",
         Event.cliConsoleLog Style.yellow "Certificate"] ∧
      (certificateSummary (CreateCertificatePlugin.new serverless) aws).outcome
        = Outcome.rejected (JSError.typeError "CertificateArn")) := by
  have hinit := initializeVariables_new_enabled serverless henabled
  have ht := getExistingCertificate_trace (initializedEnabled serverless) aws
  have hs := getExistingCertificate_fulfilled (initializedEnabled serverless) aws _ hl
  have hen : (initializedEnabled serverless).enabled = some true := rfl
  have hdom : (initializedEnabled serverless).domain
      = some serverless.service.custom.customCertificate.certificateName := rfl
  constructor
  · intro hmatch
    obtain ⟨cert, hfind, _⟩ := find_domain_some l _ hmatch
    rw [hdom] at hs
    simp only [hfind] at hs
    refine ⟨cert, hs, ?_, ?_, ?_⟩
    · simpa using hfind
    · simp [certificateSummary, hinit, hen, HookResult.ofPromise, Promise.effect,
        Promise.next, hs, ht, Promise.resolve]
    · simp [certificateSummary, hinit, hen, HookResult.ofPromise, Promise.effect,
        Promise.next, hs, ht, Promise.resolve]
  · intro habsent
    have hfind := find_domain_none l _ habsent
    rw [hdom] at hs
    simp only [hfind] at hs
    constructor
    · simp [certificateSummary, hinit, hen, HookResult.ofPromise, Promise.effect,
        Promise.next, hs, ht, Promise.reject]
    · simp [certificateSummary, hinit, hen, HookResult.ofPromise, Promise.effect,
        Promise.next, hs, ht, Promise.reject]

/-- C10, at a listing without the configured domain (the promise is rejected) and at a
listing with it (the promise is fulfilled with true). -/
theorem certificateSummary_reports_first_match_witness :
    (certificateSummary (CreateCertificatePlugin.new (exampleServerless .undefined none))
      (exampleAWS [{ CertificateArn := "arn:cert:a", DomainName := "a.example.com" }]
        [] (.fulfilled { ChangeInfoId := "chg-1" }))).outcome
      = Outcome.rejected (JSError.typeError "CertificateArn") ∧
    ∃ cert,
      (getExistingCertificate (initializedEnabled (exampleServerless .undefined none))
        (exampleAWS [{ CertificateArn := "arn:cert:1", DomainName := "cert.example.com" }]
          [] (.fulfilled { ChangeInfoId := "chg-1" }))).settled = .fulfilled (some cert) ∧
      (certificateSummary (CreateCertificatePlugin.new (exampleServerless .undefined none))
        (exampleAWS [{ CertificateArn := "arn:cert:1", DomainName := "cert.example.com" }]
          [] (.fulfilled { ChangeInfoId := "chg-1" }))).outcome
        = Outcome.resolved (JSValue.bool true) :=
  ⟨((certificateSummary_reports_first_match (exampleServerless .undefined none)
      (exampleAWS [{ CertificateArn := "arn:cert:a", DomainName := "a.example.com" }]
        [] (.fulfilled { ChangeInfoId := "chg-1" }))
      [{ CertificateArn := "arn:cert:a", DomainName := "a.example.com" }]
      rfl rfl).2 (by decide)).2,
   ((certificateSummary_reports_first_match (exampleServerless .undefined none)
      (exampleAWS [{ CertificateArn := "arn:cert:1", DomainName := "cert.example.com" }]
        [] (.fulfilled { ChangeInfoId := "chg-1" }))
      [{ CertificateArn := "arn:cert:1", DomainName := "cert.example.com" }]
      rfl rfl).1 (by decide)).imp fun _ h => ⟨h.1, h.2.2.2⟩⟩

end CertificateCreator
